import Mathlib

/-!
Verification development for the of-core repository: a shallow embedding of
the orchestration managers (producer_manager.py, consumer_manager.py) and the
Kafka stream consumer (kafka_consumer.py), with theorems settling the frozen
claims about them.

Conventions of the embedding: effectful Python methods become pure Lean
functions over explicit environment values that record the outcome of each
external interaction (HTTP responses, broker poll results); the list of HTTP
calls a method issues is returned as an explicit trace; machine time is
abstracted by giving each polling loop the finite list of responses it
receives before its deadline.
-/

namespace OfCore

/-! Part 1: kafka_consumer.py - topic patterns, topic_update (the
SubscriptionManager refresh of the spec). -/

/-- Values of topics_dict (kafka_consumer.py lines 7-11), in insertion order;
subscribe() passes exactly this list to the broker. -/
def topicPatterns : List String :=
  ["^.*_anomalies$", "^.*_normal_data$", "^.*_statistics$"]

/-- The mutable consumer state relevant to topic refresh:
self.current_topics (kafka_consumer.py line 19), a Python set of names. -/
structure KCState where
  current_topics : Finset String
deriving DecidableEq

/-- Everything observable about one call to topic_update: the state
afterwards, the local variable new_topics, whether subscribe() was invoked
(and with which pattern list), and the value the method returns to its
caller. -/
structure TopicUpdateResult where
  state : KCState
  new_topics : Finset String
  resubscribed : Bool
  subscribedWith : Option (List String)
  returned : Option (Finset String)
deriving DecidableEq

/-- KafkaMessageConsumer.topic_update (kafka_consumer.py lines 83-89).
available is the broker listing set(self.consumer.list_topics().topics.keys()).
The body computes new_topics as the set difference, overwrites
self.current_topics with the listing, and calls self.subscribe() (which
subscribes the fixed pattern list) when new_topics is non-empty. The Python
method body contains no return statement, so its value to the caller is
None, modelled by returned := none. -/
def topic_update (available : Finset String) (s : KCState) : TopicUpdateResult :=
  let new_topics := available \ s.current_topics
  { state := ⟨available⟩
    new_topics := new_topics
    resubscribed := 0 < new_topics.card
    subscribedWith := if 0 < new_topics.card then some topicPatterns else none
    returned := none }

/-! Part 2: the "all" class-label expansion performed when the managers
resolve per-vehicle configurations. -/

/-- The value a configuration template holds under a class-label key: the
symbolic string "all" or a concrete list of class indices. -/
inductive ClassSpec where
  | all
  | classes (xs : List Nat)
deriving DecidableEq

/-- producer_manager.py lines 44-45: if vehicle_config.get("anomaly_classes")
equals "all" it is replaced by list(range(0, 19)). -/
def expand_producer_anomaly : ClassSpec → ClassSpec
  | .all => .classes (List.range' 0 19)
  | s => s

/-- producer_manager.py lines 46-47: "all" diagnostics become
list(range(1, 15)). -/
def expand_producer_diagnostics : ClassSpec → ClassSpec
  | .all => .classes (List.range' 1 14)
  | s => s

/-- consumer_manager.py lines 29-30: if the merged consumer config has
anomaly_classes equal to "all" it is replaced by list(range(1, 19)). -/
def expand_consumer_anomaly : ClassSpec → ClassSpec
  | .all => .classes (List.range' 1 18)
  | s => s

/-- consumer_manager.py lines 31-32: "all" diagnostics become
list(range(1, 15)). -/
def expand_consumer_diagnostics : ClassSpec → ClassSpec
  | .all => .classes (List.range' 1 14)
  | s => s

/-! Part 3: the consumption loop of kafka_consumer.py - deserialization,
per-poll broker-error classification and read_messages. -/

/-- Helper translating the Python expression text.split(": ") on character
lists: scan left to right, breaking at each non-overlapping occurrence of
the two-character separator colon-space, accumulating the current segment
reversed. Mirrors CPython str.split semantics for a fixed non-empty
separator. -/
def splitColonSpaceAux : List Char → List Char → List (List Char)
  | [], acc => [acc.reverse]
  | ':' :: ' ' :: cs, acc => acc.reverse :: splitColonSpaceAux cs []
  | c :: cs, acc => splitColonSpaceAux cs (c :: acc)

/-- Python str.split(": ") for strings: always returns at least one segment;
indexing segment [1] in Python raises IndexError when fewer than two
segments exist, which the embedding reads off via getElem?. -/
def pySplitColonSpace (s : String) : List String :=
  (splitColonSpaceAux s.data []).map List.asString

/-- A JSON value as produced by json.loads, with just enough structure to
express Python truthiness of the result. -/
inductive Json where
  | null
  | bool (b : Bool)
  | num (n : Int)
  | str (s : String)
  | arr (xs : List Json)
  | obj (fields : List (String × Json))

/-- Python truthiness of a deserialized JSON value: None, False, 0, the
empty string, the empty list and the empty dict are falsy. -/
def Json.truthy : Json → Bool
  | .null => false
  | .bool b => b
  | .num n => n != 0
  | .str s => s != ""
  | .arr xs => !xs.isEmpty
  | .obj fs => !fs.isEmpty

/-- The Python exceptions that can escape the poll/dispatch sequence in
read_messages. -/
inductive Exn where
  | unicodeDecodeError
  | attributeError
  | indexError
  | pollError
  | dispatchError
deriving DecidableEq

/-- The raw value carried by a polled record, as seen by
deserialize_message: msg.value() may be None (a tombstone record), bytes
that are not valid UTF-8, or decodable text whose JSON parse either fails
(parsed = none) or yields a value. -/
inductive Payload where
  | nullValue
  | invalidUtf8
  | text (parsed : Option Json)

/-- KafkaMessageConsumer.deserialize_message (kafka_consumer.py lines
92-100). The try block guards only json.JSONDecodeError: a JSON parse
failure is logged and None is returned; but msg.value() being None raises
AttributeError on .decode, and non-UTF-8 bytes raise UnicodeDecodeError,
neither of which the except clause catches, so both escape the method. -/
def deserialize_message : Payload → Except Exn (Option Json)
  | .nullValue => .error .attributeError
  | .invalidUtf8 => .error .unicodeDecodeError
  | .text parsed => .ok parsed

/-- Broker error codes distinguished by read_messages:
KafkaError._PARTITION_EOF, KafkaError.UNKNOWN_TOPIC_OR_PART, anything
else. -/
inductive KErrorCode where
  | partitionEof
  | unknownTopicOrPart
  | other (n : Nat)
deriving DecidableEq

/-- A broker-reported error on a polled record: its code and the text of
msg.error().str(). -/
structure KError where
  code : KErrorCode
  errStr : String
deriving DecidableEq

/-- The log statements the loop can emit, used to distinguish informational
from error-level handling. -/
inductive LogKind where
  | infoEof
  | infoNoVehicles
  | errConsumer
  | errDeser
  | warnNoneMsg
  | errLoop
  | infoRetry
deriving DecidableEq

/-- The classification of a broker error in read_messages (kafka_consumer.py
lines 110-116): end-of-partition is logged at info level; an unknown-topic
error has msg.error().str().split(": ")[1] compared against the pattern list
(the indexing raises IndexError when the error text has fewer than two
colon-space separated segments, because Python evaluates it before the
membership test); every other code is logged at error level. -/
def classify_error (e : KError) : Except Exn LogKind :=
  if e.code = .partitionEof then .ok .infoEof
  else if e.code = .unknownTopicOrPart then
    match (pySplitColonSpace e.errStr)[1]? with
    | none => .error .indexError
    | some t => if t ∈ topicPatterns then .ok .infoNoVehicles else .ok .errConsumer
  else .ok .errConsumer

/-- One outcome of self.consumer.poll(1.0) inside the loop: no record,
a record carrying a broker error, a genuine record (callback_ok records
whether parent.process_message_routine would return normally if invoked),
or the poll call itself raising. -/
inductive PollEvent where
  | timeout
  | errorRecord (e : KError)
  | message (topic : String) (payload : Payload) (callback_ok : Bool)
  | pollRaise

/-- The effect of processing one poll outcome: either the loop continues
(with an optional dispatched record and the log lines emitted), or an
exception escapes the loop body. -/
inductive StepResult where
  | cont (dispatched : Option (String × Json)) (logs : List LogKind)
  | raised (e : Exn) (logs : List LogKind)

/-- One iteration of the while-True body of read_messages (kafka_consumer.py
lines 106-127): a None poll continues; a broker error is classified (the
classification itself can raise IndexError); a genuine record is
deserialized - an uncaught deserialization exception escapes, a falsy result
(None from a parse failure, or any falsy JSON value) is logged as a warning
and not dispatched, and a truthy result is dispatched to
parent.process_message_routine (whose own exception also escapes). -/
def stepEvent : PollEvent → StepResult
  | .timeout => .cont none []
  | .pollRaise => .raised .pollError []
  | .errorRecord e =>
    match classify_error e with
    | .ok l => .cont none [l]
    | .error ex => .raised ex []
  | .message t p callback_ok =>
    match deserialize_message p with
    | .error ex => .raised ex []
    | .ok none => .cont none [.errDeser, .warnNoneMsg]
    | .ok (some j) =>
      if j.truthy then
        if callback_ok then .cont (some (t, j)) [] else .raised .dispatchError []
      else .cont none [.warnNoneMsg]

/-- Everything observable about one invocation of read_messages on a finite
prefix of poll outcomes: the records dispatched, the log lines, how many
polls were made, the exception caught by the outer handler (if any), the
duration passed to time.sleep in that handler, and whether the finally
clause has closed the consumer (closed = false means the while-True loop is
still running, since it has no normal exit). -/
structure RunResult where
  dispatches : List (String × Json)
  logs : List LogKind
  polled : Nat
  exn : Option Exn
  slept : Option Nat
  closed : Bool

/-- The initial value of self.retry_delay (kafka_consumer.py line 21). It is
never reassigned: the two statements retry_delay = 1 (line 127) and
retry_delay = min(self.retry_delay * 2, 60) (line 132) bind a local variable
that is never read, so the attribute stays 1 forever. -/
def self_retry_delay : Nat := 1

/-- KafkaMessageConsumer.read_messages (kafka_consumer.py lines 103-134) run
on a finite script of poll outcomes. The while True loop has no break or
return: it only ends when an exception escapes one iteration, at which point
the except clause logs the error, logs the retry message, sleeps
self.retry_delay seconds, and the finally clause closes the consumer - the
function then returns without polling again, so every event after the
raising one is ignored. -/
def read_messages (retry_delay : Nat) : List PollEvent → RunResult
  | [] => { dispatches := [], logs := [], polled := 0, exn := none,
            slept := none, closed := false }
  | ev :: rest =>
    match stepEvent ev with
    | .cont d ls =>
      let r := read_messages retry_delay rest
      { dispatches := d.toList ++ r.dispatches
        logs := ls ++ r.logs
        polled := r.polled + 1
        exn := r.exn
        slept := r.slept
        closed := r.closed }
    | .raised e ls =>
      { dispatches := [], logs := ls ++ [.errLoop, .infoRetry], polled := 1,
        exn := some e, slept := some retry_delay, closed := true }

/-! Part 4: producer_manager.py and consumer_manager.py - the health probe,
worker startup and worker stop. Each HTTP interaction outcome is an input of
the environment; the list of worker-API POST/GET calls a method issues is
returned as an explicit trace. -/

/-- One observed response of a GET to a /health endpoint during polling:
the request raising a transport exception, a non-ok HTTP status, an ok
response whose body fails JSON parsing, an ok response parsing to something
other than a dict, or an ok response parsing to a dict with the given
keys. -/
inductive HealthResp where
  | requestError
  | httpNotOk
  | okNotJson
  | okNonDict
  | okDict (keys : List String)
deriving DecidableEq

/-- Marker keys accepted by ProducerManager._wait_for_health
(producer_manager.py line 285). -/
def producer_markers : List String := ["running", "config_loaded", "vehicle"]

/-- Marker keys accepted by the nested wait_for_health of
ConsumerManager.start_consumer (consumer_manager.py line 60). -/
def consumer_markers : List String := ["running", "configured"]

/-- Whether one health response is accepted: the response must be ok, its
body must parse to a dict, and the dict must contain at least one of the
marker keys; every other response kind is swallowed and polling goes on. -/
def healthAccepts (markers : List String) : HealthResp → Bool
  | .okDict keys => markers.any (fun m => keys.contains m)
  | _ => false

/-- ProducerManager._wait_for_health (producer_manager.py lines 271-298) and
the consumer wait_for_health (consumer_manager.py lines 51-65) on the finite
list of responses received before the deadline of this candidate elapses:
the loop returns True at the first accepted response and False once the
deadline passes with none accepted. -/
def wait_for_health (markers : List String) (polls : List HealthResp) : Bool :=
  polls.any (healthAccepts markers)

/-- The candidate-selection loop of ProducerManager.start_producer
(producer_manager.py lines 87-91) and the conditional chain of
ConsumerManager.start_consumer (consumer_manager.py line 67): each candidate
address is given its full per-candidate window in list order, the first
accepted candidate is returned immediately and later ones are not probed. -/
def probe (markers : List String) :
    List (String × List HealthResp) → Option String
  | [] => none
  | (u, polls) :: rest =>
    if wait_for_health markers polls then some u else probe markers rest

/-- The addresses actually contacted by the probe, in order: every candidate
up to and including the first accepted one, or all of them when none is
accepted. -/
def probed (markers : List String) :
    List (String × List HealthResp) → List String
  | [] => []
  | (u, polls) :: rest =>
    if wait_for_health markers polls then [u] else u :: probed markers rest

/-- The outcome of one HTTP request as seen by the caller: a transport-level
exception, or a response with the given status code. -/
inductive HttpResult where
  | transportError
  | status (code : Nat)
deriving DecidableEq

/-- Whether response.raise_for_status() returns normally: a transport error
already raised, and raise_for_status raises exactly for status codes in
[400, 600). Codes below 400 - including 3xx - pass. -/
def passes_raise_for_status : HttpResult → Bool
  | .transportError => false
  | .status c => if 400 ≤ c ∧ c < 600 then false else true

/-- The per-worker outcome string returned by start/stop methods, as a tagged
value: the success message or the failure message with its reason. -/
inductive Outcome where
  | success (worker : String)
  | failure (worker : String) (reason : String)
deriving DecidableEq

/-- The worker-API calls a manager method can issue, recorded in the order
they are made. -/
inductive ApiCall where
  | configure
  | start
  | statusCheck
  | stopAtName
  | stopAtIp
deriving DecidableEq

/-- The environment of one ProducerManager.start_producer call: the
containers_ips lookup, the health responses each candidate address yields
within its window, whether json.dumps accepts the config payload, and the
results of the three HTTP calls. -/
structure ProducerEnv where
  container_ip : Option String
  host_health : List HealthResp
  ip_health : List HealthResp
  json_serializable : Bool
  configure_resp : HttpResult
  start_resp : HttpResult
  status_resp : HttpResult
deriving DecidableEq

/-- The two candidate URLs of producer_manager.py lines 83-84, paired with
their health-poll traces: the DNS name first, the direct container IP
second. -/
def producer_candidates (name ip : String) (env : ProducerEnv) :
    List (String × List HealthResp) :=
  [("http://" ++ name ++ ":5000", env.host_health),
   ("http://" ++ ip ++ ":5000", env.ip_health)]

/-- ProducerManager.start_producer (producer_manager.py lines 73-146):
missing container IP fails immediately; then the candidates are probed in
order and no healthy candidate fails; then the payload is checked for JSON
serializability; then POST /configure, POST /start and GET /status are
issued in sequence, each guarded by raise_for_status, with the first failure
aborting (every exception is caught and turned into a failure return). The
first component is the trace of worker-API calls issued. -/
def start_producer (name : String) (env : ProducerEnv) :
    List ApiCall × Outcome :=
  match env.container_ip with
  | none => ([], .failure name "Container IP not found")
  | some ip =>
    match probe producer_markers (producer_candidates name ip env) with
    | none => ([], .failure name "API not healthy")
    | some _api_url =>
      if !env.json_serializable then
        ([], .failure name "JSON serialization failed")
      else if !passes_raise_for_status env.configure_resp then
        ([.configure], .failure name "configure request failed")
      else if !passes_raise_for_status env.start_resp then
        ([.configure, .start], .failure name "start request failed")
      else if !passes_raise_for_status env.status_resp then
        ([.configure, .start, .statusCheck], .failure name "status request failed")
      else
        ([.configure, .start, .statusCheck], .success name)

/-- ProducerManager.start_all_producers (producer_manager.py lines 65-71):
zip(self.producers.keys(), self.vehicle_names), one start_producer call per
pair, results collected in order. -/
def start_all_producers (producers : List (String × ProducerEnv))
    (vehicle_names : List String) : String × List (List ApiCall × Outcome) :=
  ("All producers started!",
    (producers.zip vehicle_names).map (fun pv => start_producer pv.1.1 pv.1.2))

/-- The environment of one ConsumerManager.start_consumer call:
config_present records whether the consumer_configs lookup for the vehicle
name succeeds, attrs_ok whether the container attrs lookup succeeds, and the
rest mirrors the producer case (consumers make no status GET and no
serializability check). -/
structure ConsumerEnv where
  config_present : Bool
  attrs_ok : Bool
  container_ip : String
  host_health : List HealthResp
  ip_health : List HealthResp
  configure_resp : HttpResult
  start_resp : HttpResult
deriving DecidableEq

/-- The two candidate URLs of consumer_manager.py lines 48-49. -/
def consumer_candidates (name : String) (env : ConsumerEnv) :
    List (String × List HealthResp) :=
  [("http://" ++ name ++ ":5000", env.host_health),
   ("http://" ++ env.container_ip ++ ":5000", env.ip_health)]

/-- ConsumerManager.start_consumer (consumer_manager.py lines 42-116): the
whole body is inside one try, so any step failing produces a failure return
for this consumer only; config lookup, attrs lookup, health probing of the
hostname then the IP, POST /configure and POST /start each guarded by
raise_for_status. -/
def start_consumer (name : String) (env : ConsumerEnv) :
    List ApiCall × Outcome :=
  if !env.config_present then ([], .failure name "consumer config lookup failed")
  else if !env.attrs_ok then ([], .failure name "container attrs lookup failed")
  else
    match probe consumer_markers (consumer_candidates name env) with
    | none => ([], .failure name "API not healthy")
    | some _api_url =>
      if !passes_raise_for_status env.configure_resp then
        ([.configure], .failure name "configure request failed")
      else if !passes_raise_for_status env.start_resp then
        ([.configure, .start], .failure name "start request failed")
      else ([.configure, .start], .success name)

/-- ConsumerManager.start_all_consumers (consumer_manager.py lines 35-39):
one start_consumer call per entry of the consumers dict, results collected
in order. -/
def start_all_consumers (consumers : List (String × ConsumerEnv)) :
    String × List (List ApiCall × Outcome) :=
  ("All consumers started!",
    consumers.map (fun c => start_consumer c.1 c.2))

/-- The environment of one ConsumerManager.stop_consumer call: whether the
container attrs lookup succeeds, the IPAddress value (may be the empty
string, which is falsy), and the outcomes of the two possible stop POSTs. -/
structure StopConsumerEnv where
  attrs_ok : Bool
  container_ip : String
  host_resp : HttpResult
  ip_resp : HttpResult
deriving DecidableEq

/-- ConsumerManager.stop_consumer (consumer_manager.py lines 119-147): POST
to the name-based stop URL first; on any exception there, one fallback POST
to the IP-based URL when the IP is non-empty; when no attempt succeeds the
failure (including the RuntimeError when no fallback exists) is caught by
the outer handler and only logged - the method always returns None to the
caller. The Bool records whether a stop attempt succeeded. -/
def stop_consumer (env : StopConsumerEnv) : List ApiCall × Bool :=
  if !env.attrs_ok then ([], false)
  else if passes_raise_for_status env.host_resp then ([.stopAtName], true)
  else if env.container_ip ≠ "" then
    if passes_raise_for_status env.ip_resp then ([.stopAtName, .stopAtIp], true)
    else ([.stopAtName, .stopAtIp], false)
  else ([.stopAtName], false)

/-- ConsumerManager.stop_all_consumers (consumer_manager.py lines 149-151):
every consumer gets a stop_consumer invocation; nothing is returned or
raised. -/
def stop_all_consumers (cs : List (String × StopConsumerEnv)) :
    List (List ApiCall × Bool) :=
  cs.map (fun c => stop_consumer c.2)

/-- The environment of one ProducerManager.stop_producer call. -/
structure StopProducerEnv where
  container_ip : Option String
  stop_resp : HttpResult
deriving DecidableEq

/-- ProducerManager.stop_producer (producer_manager.py lines 148-163): a
missing container IP returns a failure message with no request made;
otherwise a single POST to the IP-based stop URL - there is no name-based
attempt and no fallback - and a RequestException is caught and returned as a
failure message, never raised. -/
def stop_producer (name : String) (env : StopProducerEnv) :
    List ApiCall × Outcome :=
  match env.container_ip with
  | none => ([], .failure name "Container IP not found")
  | some _ip =>
    if passes_raise_for_status env.stop_resp then ([.stopAtIp], .success name)
    else ([.stopAtIp], .failure name "stop request failed")

/-- ProducerManager.stop_all_producers (producer_manager.py lines 255-261):
one stop_producer call per producer, results collected. -/
def stop_all_producers (ps : List (String × StopProducerEnv)) :
    String × List (List ApiCall × Outcome) :=
  ("All producers stopped!", ps.map (fun p => stop_producer p.1 p.2))

/-! Concrete sample environments used by the witnesses and
counterexamples. -/

/-- A producer whose hostname candidate is healthy and whose HTTP calls all
return 200. -/
def envHealthy : ProducerEnv :=
  { container_ip := some "172.18.0.2", host_health := [.okDict ["running"]],
    ip_health := [], json_serializable := true, configure_resp := .status 200,
    start_resp := .status 200, status_resp := .status 200 }

/-- A producer whose container IP is unknown. -/
def envNoIp : ProducerEnv :=
  { container_ip := none, host_health := [], ip_health := [],
    json_serializable := true, configure_resp := .status 200,
    start_resp := .status 200, status_resp := .status 200 }

/-- A producer that is healthy but whose configure call yields HTTP 304, a
status that is not 2xx yet passes raise_for_status. -/
def env304 : ProducerEnv := { envHealthy with configure_resp := .status 304 }

/-- A producer whose configure call raises a transport error. -/
def envConfigureDown : ProducerEnv :=
  { envHealthy with configure_resp := .transportError }

/-- A producer none of whose candidates ever produces an accepted health
response. -/
def envUnhealthy : ProducerEnv :=
  { container_ip := some "172.18.0.9", host_health := [.requestError],
    ip_health := [.okNonDict], json_serializable := true,
    configure_resp := .status 200, start_resp := .status 200,
    status_resp := .status 200 }

/-- A healthy consumer environment. -/
def cenvHealthy : ConsumerEnv :=
  { config_present := true, attrs_ok := true, container_ip := "172.18.0.3",
    host_health := [.okDict ["configured"]], ip_health := [],
    configure_resp := .status 200, start_resp := .status 200 }

/-- A consumer whose configure call raises a transport error. -/
def cenvConfigureDown : ConsumerEnv :=
  { cenvHealthy with configure_resp := .transportError }

/-- Sample producer fleet: one healthy worker and one with a missing IP. -/
def c1_producers : List (String × ProducerEnv) :=
  [("veh1_producer", envHealthy), ("veh2_producer", envNoIp)]

/-- Sample vehicle names aligned with c1_producers. -/
def c1_vehicles : List String := ["veh1", "veh2"]

/-- Sample consumer fleet. -/
def c1_consumers : List (String × ConsumerEnv) := [("veh1_consumer", cenvHealthy)]

/-- Probe candidates where the first address never answers usefully and the
second eventually returns a marker body. -/
def c4_cands : List (String × List HealthResp) :=
  [("http://veh1_producer:5000", [.requestError, .httpNotOk]),
   ("http://172.18.0.2:5000", [.okNonDict, .okDict ["running"]])]

/-- A stop-producer environment with a known container IP and a healthy stop
endpoint. -/
def c7_stop_penv : StopProducerEnv := ⟨some "172.18.0.2", .status 200⟩

/-- A stop-consumer environment whose name-based attempt fails by transport
error and whose IP fallback succeeds. -/
def c7_stop_cenv : StopConsumerEnv :=
  { attrs_ok := true, container_ip := "172.18.0.3",
    host_resp := .transportError, ip_resp := .status 200 }

end OfCore

namespace OfCore

/-- C3: For every vehicle whose configuration template has anomaly_classes
equal to the symbolic value "all", the resolved producer configuration holds
the concrete list [0, 1, ..., 18] while the resolved consumer configuration
holds the concrete list [1, 2, ..., 18]: the producer range starts at 0 and
the consumer range starts at 1. -/
theorem c3_all_expansion_asymmetry :
    expand_producer_anomaly .all =
      .classes [0, 1, 2, 3, 4, 5, 6, 7, 8, 9, 10, 11, 12, 13, 14, 15, 16, 17, 18] ∧
    expand_consumer_anomaly .all =
      .classes [1, 2, 3, 4, 5, 6, 7, 8, 9, 10, 11, 12, 13, 14, 15, 16, 17, 18] := by
  constructor <;> rfl

/-- C2 counterexample: at the concrete broker listing containing exactly the
one topic veh1_anomalies, starting from an empty snapshot, the newly observed
set is non-empty yet topic_update returns None to its caller (the Python
body has no return statement), refuting the part of the claim stating that
the set of newly observed topic names is returned to the caller. -/
theorem c2_counterexample :
    (topic_update {"veh1_anomalies"} ⟨∅⟩).new_topics = {"veh1_anomalies"} ∧
    (topic_update {"veh1_anomalies"} ⟨∅⟩).returned = none := by
  refine ⟨?_, rfl⟩
  simp [topic_update]

/-- C2 amended: on every invocation of topic_update, the snapshot afterwards
equals exactly the new listing (replaced, never merged), the internally
computed set of newly observed topics equals the set difference of the new
listing minus the old snapshot, a broker-level resubscription with the fixed
pattern list is issued if and only if that difference is non-empty, the
method returns None to the caller (the newly observed set is not returned),
and a second call with an unchanged listing triggers no resubscription. -/
theorem c2_topic_update_refresh (available : Finset String) (s : KCState) :
    (topic_update available s).state.current_topics = available ∧
    (topic_update available s).new_topics = available \ s.current_topics ∧
    ((topic_update available s).resubscribed = true ↔
      (available \ s.current_topics).Nonempty) ∧
    ((topic_update available s).subscribedWith = some topicPatterns ↔
      (topic_update available s).resubscribed = true) ∧
    (topic_update available s).returned = none ∧
    (topic_update available ((topic_update available s).state)).resubscribed = false ∧
    (topic_update available ((topic_update available s).state)).new_topics = ∅ := by
  refine ⟨rfl, rfl, ?_, ?_, rfl, ?_, ?_⟩
  · simp [topic_update, Finset.card_pos]
  · by_cases h : 0 < (available \ s.current_topics).card <;>
      simp [topic_update, h]
  · simp [topic_update]
  · simp [topic_update]

/-- C6: the exception path of read_messages evaluated on the code. Whatever
events follow the raising poll, the function makes no further poll (no retry
occurs: polled stays 1 and the rest of the script is ignored), the sleep
before exiting is always exactly self.retry_delay = 1 second (the
exponential-backoff expression on line 132 assigns a local variable that is
never read, so no growth is ever observed), and the finally clause closes
the consumer. This contradicts the claimed retry-once-with-growing-backoff
behaviour and matches the retry log message on line 130 only in wording. -/
theorem c6_exception_exits_without_retry :
    (∀ rest : List PollEvent,
      read_messages self_retry_delay (.pollRaise :: rest) =
        { dispatches := [], logs := [.errLoop, .infoRetry], polled := 1,
          exn := some .pollError, slept := some 1, closed := true }) ∧
    (∀ script : List PollEvent,
      (read_messages self_retry_delay script).slept = none ∨
      (read_messages self_retry_delay script).slept = some 1) := by
  refine ⟨fun rest => rfl, fun script => ?_⟩
  induction script with
  | nil => exact Or.inl rfl
  | cons ev rest ih =>
    cases h : stepEvent ev with
    | cont d ls => simpa [read_messages, h] using ih
    | raised e ls => exact Or.inr (by simp [read_messages, h, self_retry_delay])

/-- C8 counterexample: a record carrying an unknown-topic broker error whose
error text "boom" contains no colon-space separator makes the classification
expression msg.error().str().split(": ")[1] raise IndexError, which escapes
the per-poll handling and terminates the loop (the consumer is closed),
refuting the part of the claim stating that in all three broker-error cases
the loop continues without the error propagating. -/
theorem c8_counterexample :
    (read_messages 1 [.errorRecord ⟨.unknownTopicOrPart, "boom"⟩]).exn =
      some .indexError ∧
    (read_messages 1 [.errorRecord ⟨.unknownTopicOrPart, "boom"⟩]).closed = true ∧
    (read_messages 1 [.errorRecord ⟨.unknownTopicOrPart, "boom"⟩]).polled = 1 := by
  refine ⟨rfl, rfl, rfl⟩

/-- C8 amended: per-poll outcome handling. A poll returning no record makes
the loop continue to the next poll with nothing dispatched, nothing logged
and no exception. End-of-partition errors are logged informationally; an
unknown-topic error whose second colon-space separated segment exactly
equals one of the configured pattern strings is logged informationally, and
with a second segment not matching any pattern it is logged as an error, as
is every other error code; in each of these classified cases the loop
continues to the next poll with the error not propagated. However, an
unknown-topic error whose text has fewer than two colon-space separated
segments raises IndexError out of the classification, terminating the
loop. -/
theorem c8_broker_error_handling (d : Nat) (rest : List PollEvent)
    (s : String) (n : Nat) (e : KError) :
    read_messages d (.timeout :: rest) =
      { dispatches := (read_messages d rest).dispatches
        logs := (read_messages d rest).logs
        polled := (read_messages d rest).polled + 1
        exn := (read_messages d rest).exn
        slept := (read_messages d rest).slept
        closed := (read_messages d rest).closed } ∧
    classify_error ⟨.partitionEof, s⟩ = .ok .infoEof ∧
    classify_error ⟨.other n, s⟩ = .ok .errConsumer ∧
    (∀ t, e.code = .unknownTopicOrPart → (pySplitColonSpace e.errStr)[1]? = some t →
      classify_error e =
        .ok (if t ∈ topicPatterns then .infoNoVehicles else .errConsumer)) ∧
    (∀ l, classify_error e = .ok l →
      read_messages d (.errorRecord e :: rest) =
        { dispatches := (read_messages d rest).dispatches
          logs := l :: (read_messages d rest).logs
          polled := (read_messages d rest).polled + 1
          exn := (read_messages d rest).exn
          slept := (read_messages d rest).slept
          closed := (read_messages d rest).closed }) ∧
    (e.code = .unknownTopicOrPart → (pySplitColonSpace e.errStr)[1]? = none →
      (read_messages d (.errorRecord e :: rest)).exn = some .indexError ∧
      (read_messages d (.errorRecord e :: rest)).closed = true) := by
  refine ⟨rfl, rfl, rfl, ?_, ?_, ?_⟩
  · intro t hc hs
    by_cases hp : t ∈ topicPatterns <;> simp [classify_error, hc, hs, hp]
  · intro l hl
    simp [read_messages, stepEvent, hl]
  · intro hc hs
    have hcl : classify_error e = .error .indexError := by
      simp [classify_error, hc, hs]
    constructor <;> simp [read_messages, stepEvent, hcl]

/-- C8 witness: the amended theorem applied at concrete inputs - a poll
returning no record (the loop continues with nothing logged), an
end-of-partition error, an unknown-topic error naming the anomalies pattern
(logged informationally and the loop continues), and an unknown-topic error
without a separator (IndexError terminates the loop). -/
theorem c8_witness :
    read_messages 1 [.timeout] =
      { dispatches := [], logs := [], polled := 1,
        exn := none, slept := none, closed := false } ∧
    classify_error ⟨.partitionEof, "eof"⟩ = .ok .infoEof ∧
    classify_error
      ⟨.unknownTopicOrPart, "Subscribed topic not available: ^.*_anomalies$: err"⟩ =
      .ok .infoNoVehicles ∧
    read_messages 1 [.errorRecord ⟨.partitionEof, "eof"⟩] =
      { dispatches := [], logs := [.infoEof], polled := 1,
        exn := none, slept := none, closed := false } ∧
    (read_messages 1 [.errorRecord ⟨.unknownTopicOrPart, "no separator"⟩]).exn =
      some .indexError := by
  refine ⟨(c8_broker_error_handling 1 [] "eof" 0 ⟨.partitionEof, "eof"⟩).1,
    (c8_broker_error_handling 1 [] "eof" 0 ⟨.partitionEof, "eof"⟩).2.1, ?_, ?_, ?_⟩
  · exact (c8_broker_error_handling 1 [] "eof" 0
      ⟨.unknownTopicOrPart, "Subscribed topic not available: ^.*_anomalies$: err"⟩).2.2.2.1
      "^.*_anomalies$" rfl rfl
  · exact (c8_broker_error_handling 1 [] "eof" 0
      ⟨.partitionEof, "eof"⟩).2.2.2.2.1 .infoEof rfl
  · exact ((c8_broker_error_handling 1 [] "eof" 0
      ⟨.unknownTopicOrPart, "no separator"⟩).2.2.2.2.2 rfl rfl).1

/-- C9 counterexample: a record whose payload is the byte sequence that is
not valid UTF-8 makes deserialization raise UnicodeDecodeError (the except
clause of deserialize_message catches only json.JSONDecodeError), the
exception escapes to the outer handler and the loop terminates: the
following timeout event is never polled, refuting the claim that
deserializing a malformed payload never raises past the loop boundary and
that the next poll proceeds normally. -/
theorem c9_counterexample :
    (read_messages 1 [.message "veh1_anomalies" .invalidUtf8 true, .timeout]).exn =
      some .unicodeDecodeError ∧
    (read_messages 1 [.message "veh1_anomalies" .invalidUtf8 true, .timeout]).closed
      = true ∧
    (read_messages 1 [.message "veh1_anomalies" .invalidUtf8 true, .timeout]).polled
      = 1 := by
  refine ⟨rfl, rfl, rfl⟩

/-- C9 amended: a payload that decodes to text but fails JSON parsing is
handled inside deserialize_message (the error is logged, None is returned),
the record is dropped without dispatch, a warning is logged, and the loop
proceeds to the next poll. A payload that is not valid UTF-8, or a None
payload, instead raises an exception that deserialize_message does not
catch; it escapes to the outer handler, which terminates the loop and closes
the consumer. -/
theorem c9_deserialization_guard (d : Nat) (t : String)
    (rest : List PollEvent) (b : Bool) :
    deserialize_message (.text none) = .ok none ∧
    read_messages d (.message t (.text none) b :: rest) =
      { dispatches := (read_messages d rest).dispatches
        logs := .errDeser :: .warnNoneMsg :: (read_messages d rest).logs
        polled := (read_messages d rest).polled + 1
        exn := (read_messages d rest).exn
        slept := (read_messages d rest).slept
        closed := (read_messages d rest).closed } ∧
    deserialize_message .invalidUtf8 = .error .unicodeDecodeError ∧
    deserialize_message .nullValue = .error .attributeError ∧
    read_messages d (.message t .invalidUtf8 b :: rest) =
      { dispatches := [], logs := [.errLoop, .infoRetry], polled := 1,
        exn := some .unicodeDecodeError, slept := some d, closed := true } := by
  refine ⟨rfl, ?_, rfl, rfl, rfl⟩
  simp [read_messages, stepEvent, deserialize_message]

/-- C10: a successfully deserialized record is dispatched to the routing
callback if and only if its value is truthy in the Python sense; a falsy
value (None, False, 0, the empty string, the empty list, the empty dict) is
dropped with a warning and the loop continues to the next poll. -/
theorem c10_dispatch_iff_truthy (d : Nat) (t : String) (j : Json)
    (rest : List PollEvent) :
    (read_messages d (.message t (.text (some j)) true :: rest)).dispatches =
      (if j.truthy then [(t, j)] else []) ++ (read_messages d rest).dispatches ∧
    (read_messages d (.message t (.text (some j)) true :: rest)).logs =
      (if j.truthy then [] else [.warnNoneMsg]) ++ (read_messages d rest).logs ∧
    (read_messages d (.message t (.text (some j)) true :: rest)).polled =
      (read_messages d rest).polled + 1 ∧
    (read_messages d (.message t (.text (some j)) true :: rest)).closed =
      (read_messages d rest).closed ∧
    Json.truthy .null = false ∧
    Json.truthy (.obj []) = false ∧
    Json.truthy (.arr []) = false ∧
    Json.truthy (.num 0) = false ∧
    Json.truthy (.str "") = false ∧
    Json.truthy (.bool false) = false := by
  cases h : j.truthy <;>
    simp_all [read_messages, stepEvent, deserialize_message, Json.truthy]

/-- Helper: indexing into the map of a zip whose halves have equal length
projects to indexing the first half. -/
theorem getElem?_map_zip_fst {α β γ : Type} (f : α → γ) (ps : List α)
    (vs : List β) (h : ps.length = vs.length) (i : Nat) :
    ((ps.zip vs).map (fun pv => f pv.1))[i]? = (ps[i]?).map f := by
  induction ps generalizing vs i with
  | nil => simp
  | cons p ps ih =>
    cases vs with
    | nil => simp at h
    | cons v vs =>
      cases i with
      | zero => simp
      | succ i => simpa using ih vs (by simpa using h) i

/-- C1: start_all_producers and start_all_consumers return exactly one
outcome per worker, and the outcome at position i is exactly the one
start_producer / start_consumer computes from worker i alone, so one
failing worker (missing IP, unhealthy endpoint, HTTP error - all of which
yield a failure outcome rather than an exception) cannot prevent or alter
the outcome of any other worker. The producer side pairs the producers dict
with the vehicle-name list by position, so the hypothesis that the two have
equal length (which holds for a fleet enumerated from the configuration) is
required for the zip not to truncate. -/
theorem c1_one_outcome_per_worker
    (producers : List (String × ProducerEnv)) (vehicle_names : List String)
    (consumers : List (String × ConsumerEnv))
    (h : producers.length = vehicle_names.length) :
    (start_all_producers producers vehicle_names).2.length = producers.length ∧
    (∀ i : Nat, ((start_all_producers producers vehicle_names).2)[i]? =
      (producers[i]?).map (fun p => start_producer p.1 p.2)) ∧
    (start_all_consumers consumers).2.length = consumers.length ∧
    (∀ i : Nat, ((start_all_consumers consumers).2)[i]? =
      (consumers[i]?).map (fun c => start_consumer c.1 c.2)) := by
  refine ⟨?_, ?_, ?_, ?_⟩
  · simp [start_all_producers]
    omega
  · intro i
    exact getElem?_map_zip_fst (fun p => start_producer p.1 p.2)
      producers vehicle_names h i
  · simp [start_all_consumers]
  · intro i
    simp [start_all_consumers]

/-- C1 witness: a fleet of two producers - one healthy, one with a missing
container IP - and one consumer. The failed worker yields a failure outcome
at its own position while the fleet still gets one outcome per worker. -/
theorem c1_witness :
    (start_all_producers c1_producers c1_vehicles).2.length =
      c1_producers.length ∧
    ((start_all_producers c1_producers c1_vehicles).2)[1]? =
      some (start_producer "veh2_producer" envNoIp) ∧
    (start_all_consumers c1_consumers).2.length = c1_consumers.length ∧
    (start_producer "veh2_producer" envNoIp).2 =
      .failure "veh2_producer" "Container IP not found" ∧
    (start_producer "veh1_producer" envHealthy).2 = .success "veh1_producer" := by
  obtain ⟨a, b, c, -⟩ :=
    c1_one_outcome_per_worker c1_producers c1_vehicles c1_consumers rfl
  exact ⟨a, b 1, c, rfl, rfl⟩

/-- C4: the health probe accepts a response exactly when its body is a dict
containing a marker key; transient errors and non-marker responses are
swallowed (they never change the verdict of the remaining polls); the probe
returns the first candidate, in strict list order, that produces an accepted
response within its window - later candidates are contacted only when every
earlier candidate exhausted its window unaccepted - and returns none exactly
when no candidate is ever accepted, in which case start_producer and
start_consumer report a per-worker failure outcome. -/
theorem c4_health_probe (markers : List String)
    (cands : List (String × List HealthResp)) :
    probe markers cands =
      (cands.find? (fun c => wait_for_health markers c.2)).map Prod.fst ∧
    probed markers cands =
      (cands.map Prod.fst).take
        (cands.findIdx (fun c => wait_for_health markers c.2) + 1) ∧
    (∀ r, healthAccepts markers r = true ↔
      ∃ keys, r = .okDict keys ∧ ∃ m ∈ markers, keys.contains m = true) ∧
    (∀ r polls, healthAccepts markers r = false →
      wait_for_health markers (r :: polls) = wait_for_health markers polls) ∧
    (probe markers cands = none ↔
      ∀ c ∈ cands, wait_for_health markers c.2 = false) ∧
    (∀ name env ip, env.container_ip = some ip →
      probe producer_markers (producer_candidates name ip env) = none →
      start_producer name env = ([], .failure name "API not healthy")) ∧
    (∀ name env, env.config_present = true → env.attrs_ok = true →
      probe consumer_markers (consumer_candidates name env) = none →
      start_consumer name env = ([], .failure name "API not healthy")) := by
  have hfind : ∀ cs : List (String × List HealthResp),
      probe markers cs =
        (cs.find? (fun c => wait_for_health markers c.2)).map Prod.fst := by
    intro cs
    induction cs with
    | nil => rfl
    | cons c rest ih =>
      cases hw : wait_for_health markers c.2 with
      | true => simp [probe, hw, List.find?_cons_of_pos, hw]
      | false => simp [probe, hw, List.find?_cons_of_neg, ih]
  refine ⟨hfind cands, ?_, ?_, ?_, ?_, ?_, ?_⟩
  · induction cands with
    | nil => rfl
    | cons c rest ih =>
      cases hw : wait_for_health markers c.2 with
      | true => simp [probed, hw, List.findIdx_cons]
      | false => simp [probed, hw, List.findIdx_cons, ih]
  · intro r
    cases r <;> simp [healthAccepts, List.any_eq_true]
  · intro r polls hr
    simp [wait_for_health, List.any_cons, hr]
  · rw [hfind cands]
    simp [List.find?_eq_none]
  · intro name env ip h1 h2
    simp [start_producer, h1, h2]
  · intro name env h1 h2 h3
    simp [start_consumer, h1, h2, h3]

/-- C4 witness: with a first candidate that only yields transport errors and
non-ok responses and a second whose second poll carries a marker dict, the
probe contacts both candidates in order and returns the second; an accepted
response is exactly a marker dict; a transport error does not change the
verdict; and a fully unhealthy producer gets a failure outcome. -/
theorem c4_witness :
    probe producer_markers c4_cands = some "http://172.18.0.2:5000" ∧
    probed producer_markers c4_cands =
      ["http://veh1_producer:5000", "http://172.18.0.2:5000"] ∧
    healthAccepts producer_markers (.okDict ["running"]) = true ∧
    wait_for_health producer_markers [.requestError, .okDict ["running"]] =
      wait_for_health producer_markers [.okDict ["running"]] ∧
    start_producer "veh3_producer" envUnhealthy =
      ([], .failure "veh3_producer" "API not healthy") := by
  obtain ⟨h1, h2, h3, h4, -, h6, -⟩ :=
    c4_health_probe producer_markers c4_cands
  refine ⟨?_, ?_, ?_, ?_, ?_⟩
  · exact h1
  · exact h2
  · exact (h3 (.okDict ["running"])).mpr ⟨["running"], rfl, "running", by simp [producer_markers], rfl⟩
  · exact h4 .requestError [.okDict ["running"]] rfl
  · exact h6 "veh3_producer" envUnhealthy "172.18.0.9" rfl rfl

/-- C5 counterexample: a producer whose configure endpoint answers HTTP 304.
The status 304 is not 2xx, yet raise_for_status only raises for 4xx/5xx, so
the startup proceeds and the POST to the start endpoint is issued - refuting
the claim that any non-2xx configure response aborts the startup before
start is attempted. -/
theorem c5_counterexample :
    ApiCall.start ∈ (start_producer "veh1_producer" env304).1 ∧
    env304.configure_resp = .status 304 ∧
    ¬(200 ≤ 304 ∧ 304 < 300) := by
  refine ⟨by decide, rfl, by omega⟩

/-- C5 amended: the POST to the start endpoint is never issued unless the
preceding configure call passed raise_for_status (that is, returned a
non-error status below 400; any 4xx or 5xx response or transport error on
configure aborts the startup with a failure outcome before start is
attempted), configure always precedes start in the issued trace, and a
failing start call likewise prevents a success outcome - for producers and
consumers alike. -/
theorem c5_configure_before_start (pname cname : String)
    (penv : ProducerEnv) (cenv : ConsumerEnv) :
    ((ApiCall.start ∈ (start_producer pname penv).1 →
        passes_raise_for_status penv.configure_resp = true ∧
        ((start_producer pname penv).1 = [.configure, .start] ∨
         (start_producer pname penv).1 = [.configure, .start, .statusCheck])) ∧
      (passes_raise_for_status penv.configure_resp = false →
        ApiCall.start ∉ (start_producer pname penv).1 ∧
        (start_producer pname penv).2 ≠ .success pname) ∧
      (passes_raise_for_status penv.start_resp = false →
        (start_producer pname penv).2 ≠ .success pname)) ∧
    ((ApiCall.start ∈ (start_consumer cname cenv).1 →
        passes_raise_for_status cenv.configure_resp = true ∧
        (start_consumer cname cenv).1 = [.configure, .start]) ∧
      (passes_raise_for_status cenv.configure_resp = false →
        ApiCall.start ∉ (start_consumer cname cenv).1 ∧
        (start_consumer cname cenv).2 ≠ .success cname) ∧
      (passes_raise_for_status cenv.start_resp = false →
        (start_consumer cname cenv).2 ≠ .success cname)) := by
  constructor
  · cases hip : penv.container_ip with
    | none => simp [start_producer, hip]
    | some ip =>
      cases hpr : probe producer_markers (producer_candidates pname ip penv) <;>
      cases hj : penv.json_serializable <;>
      cases hc : passes_raise_for_status penv.configure_resp <;>
      cases hs : passes_raise_for_status penv.start_resp <;>
      cases hst : passes_raise_for_status penv.status_resp <;>
      simp [start_producer, hip, hpr, hj, hc, hs, hst]
  · cases hcp : cenv.config_present with
    | false => simp [start_consumer, hcp]
    | true =>
      cases hao : cenv.attrs_ok with
      | false => simp [start_consumer, hcp, hao]
      | true =>
        cases hpr : probe consumer_markers (consumer_candidates cname cenv) <;>
        cases hc : passes_raise_for_status cenv.configure_resp <;>
        cases hs : passes_raise_for_status cenv.start_resp <;>
        simp [start_consumer, hcp, hao, hpr, hc, hs]

/-- C5 witness: a healthy producer with all calls succeeding has configure
preceding start in its trace; a producer or consumer whose configure call
raises a transport error issues no start call and does not succeed. -/
theorem c5_witness :
    (passes_raise_for_status envHealthy.configure_resp = true ∧
      ((start_producer "veh1_producer" envHealthy).1 = [.configure, .start] ∨
       (start_producer "veh1_producer" envHealthy).1 =
         [.configure, .start, .statusCheck])) ∧
    (ApiCall.start ∉ (start_producer "veh1_producer" envConfigureDown).1 ∧
      (start_producer "veh1_producer" envConfigureDown).2 ≠
        .success "veh1_producer") ∧
    (ApiCall.start ∉ (start_consumer "veh1_consumer" cenvConfigureDown).1 ∧
      (start_consumer "veh1_consumer" cenvConfigureDown).2 ≠
        .success "veh1_consumer") := by
  refine ⟨?_, ?_, ?_⟩
  · exact (c5_configure_before_start "veh1_producer" "veh1_consumer"
      envHealthy cenvHealthy).1.1 (by decide)
  · exact (c5_configure_before_start "veh1_producer" "veh1_consumer"
      envConfigureDown cenvHealthy).1.2.1 rfl
  · exact (c5_configure_before_start "veh1_producer" "veh1_consumer"
      envHealthy cenvConfigureDown).2.2.1 rfl

/-- C7 counterexample: for a producer with a known container IP and a
healthy stop endpoint, the stop issues exactly one POST, to the IP-based
address - the primary name-based address is never contacted - refuting the
claim that for every worker the stop first POSTs to the name-based address
with an IP fallback. -/
theorem c7_counterexample :
    (stop_producer "veh1_producer" c7_stop_penv).1 = [ApiCall.stopAtIp] ∧
    ApiCall.stopAtName ∉ (stop_producer "veh1_producer" c7_stop_penv).1 := by
  exact ⟨rfl, by decide⟩

/-- C7 amended: for consumers the claim holds - the stop POSTs first to the
name-based address, makes exactly one fallback attempt to the IP address
when the first attempt fails and an IP is known, reports failure only when
both attempts fail (or no fallback exists), and never raises, so
stop_all_consumers performs a stop invocation for every consumer. For
producers, however, stop makes a single attempt against the direct IP
address only (failing without any request when the IP is unknown), and
stop_all_producers likewise reaches every producer with failures returned
rather than raised. -/
theorem c7_stop_fallback_policy (name : String) (cenv : StopConsumerEnv)
    (penv : StopProducerEnv) (cs : List (String × StopConsumerEnv))
    (ps : List (String × StopProducerEnv)) :
    (cenv.attrs_ok = true → (stop_consumer cenv).1.head? = some .stopAtName) ∧
    (cenv.attrs_ok = true → passes_raise_for_status cenv.host_resp = false →
      cenv.container_ip ≠ "" →
      (stop_consumer cenv).1 = [.stopAtName, .stopAtIp]) ∧
    (cenv.attrs_ok = true →
      ((stop_consumer cenv).2 = false ↔
        (passes_raise_for_status cenv.host_resp = false ∧
         (cenv.container_ip = "" ∨
          passes_raise_for_status cenv.ip_resp = false)))) ∧
    (stop_all_consumers cs).length = cs.length ∧
    (∀ i : Nat, (stop_all_consumers cs)[i]? =
      (cs[i]?).map (fun c => stop_consumer c.2)) ∧
    (∀ ip, penv.container_ip = some ip →
      (stop_producer name penv).1 = [.stopAtIp] ∧
      ApiCall.stopAtName ∉ (stop_producer name penv).1) ∧
    (penv.container_ip = none →
      stop_producer name penv = ([], .failure name "Container IP not found")) ∧
    (stop_all_producers ps).2.length = ps.length ∧
    (∀ i : Nat, (stop_all_producers ps).2[i]? =
      (ps[i]?).map (fun p => stop_producer p.1 p.2)) := by
  refine ⟨?_, ?_, ?_, ?_, ?_, ?_, ?_, ?_, ?_⟩
  · intro ha
    cases hh : passes_raise_for_status cenv.host_resp <;>
    by_cases hi : cenv.container_ip = "" <;>
    cases hr : passes_raise_for_status cenv.ip_resp <;>
    simp [stop_consumer, ha, hh, hi, hr]
  · intro ha hh hi
    cases hr : passes_raise_for_status cenv.ip_resp <;>
    simp [stop_consumer, ha, hh, hi, hr]
  · intro ha
    cases hh : passes_raise_for_status cenv.host_resp <;>
    by_cases hi : cenv.container_ip = "" <;>
    cases hr : passes_raise_for_status cenv.ip_resp <;>
    simp [stop_consumer, ha, hh, hi, hr]
  · simp [stop_all_consumers]
  · intro i
    simp [stop_all_consumers]
  · intro ip h
    cases hr : passes_raise_for_status penv.stop_resp <;>
    simp [stop_producer, h, hr]
  · intro h
    simp [stop_producer, h]
  · simp [stop_all_producers]
  · intro i
    simp [stop_all_producers]

/-- C7 witness: a consumer whose name-based stop attempt fails by transport
error and whose IP fallback succeeds contacts the name-based address first
and then exactly the IP address, ending in success; a producer stop with a
known IP contacts only the IP address. -/
theorem c7_witness :
    (stop_consumer c7_stop_cenv).1.head? = some .stopAtName ∧
    (stop_consumer c7_stop_cenv).1 = [.stopAtName, .stopAtIp] ∧
    ((stop_consumer c7_stop_cenv).2 = false ↔
      (passes_raise_for_status c7_stop_cenv.host_resp = false ∧
       (c7_stop_cenv.container_ip = "" ∨
        passes_raise_for_status c7_stop_cenv.ip_resp = false))) ∧
    (stop_producer "veh1_producer" c7_stop_penv).1 = [.stopAtIp] := by
  obtain ⟨h1, h2, h3, -, -, h6, -⟩ :=
    c7_stop_fallback_policy "veh1_producer" c7_stop_cenv c7_stop_penv [] []
  exact ⟨h1 rfl, h2 rfl rfl (by simp [c7_stop_cenv]), h3 rfl,
    (h6 "172.18.0.2" rfl).1⟩

end OfCore
